import Mathlib

/-!
Shallow embedding of the intake-config validator
(`scripts/validate_intake_config.py`) and of the output-package checker
(`scripts/validate_output_package.py`) of the public-site design-system
modernizer skill, together with theorems settling the specification
claims about them.

JSON values are modelled by the inductive `JValue`; Python floats are
modelled as rationals.  Python `dict.get` returns `None` both for an
absent key and for a stored JSON `null`, so `JObj.getPy` collapses the
two to `JValue.null`; the Python `in` test is modelled by `JObj.hasKey`.
Each Python validator appends findings to shared `errors` / `warnings`
lists; here each validator returns the list of findings it appends, and
the orchestrator concatenates them in program order.
-/

inductive JValue where
  | null  : JValue
  | bool  : Bool → JValue
  | int   : Int → JValue
  | float : ℚ → JValue
  | str   : String → JValue
  | arr   : List JValue → JValue
  | obj   : List (String × JValue) → JValue
deriving Repr

abbrev JObj := List (String × JValue)

/-- Python `obj.get(key)`: the stored value, with an absent key (or a stored
JSON null, which Python cannot distinguish from absence via `get`) read as
`JValue.null`. -/
def JObj.getPy (o : JObj) (k : String) : JValue :=
  match o.lookup k with
  | some v => v
  | none => JValue.null

/-- Python `key in obj`. -/
def JObj.hasKey (o : JObj) (k : String) : Bool :=
  (o.lookup k).isSome

/-- Python `isinstance(v, dict)`. -/
def JValue.isDict : JValue → Bool
  | .obj _ => true
  | _ => false

/-- Python `isinstance(v, bool)`. -/
def JValue.isBool : JValue → Bool
  | .bool _ => true
  | _ => false

/-- Python `isinstance(v, str)`. -/
def JValue.isStr : JValue → Bool
  | .str _ => true
  | _ => false

/-- Python `isinstance(v, (int, float)) and not isinstance(v, bool)`. -/
def JValue.isNum : JValue → Bool
  | .int _ => true
  | .float _ => true
  | _ => false

/-- Python `isinstance(v, list)`. -/
def JValue.isList : JValue → Bool
  | .arr _ => true
  | _ => false

/-- Python `v is True`: identity with the `True` singleton. -/
def JValue.isTrue : JValue → Bool
  | .bool true => true
  | _ => false

/-- Python `v is False`: identity with the `False` singleton. -/
def JValue.isFalse : JValue → Bool
  | .bool false => true
  | _ => false

/-- The fields of a value known to be an object. -/
def JValue.asObj : JValue → JObj
  | .obj fs => fs
  | _ => []

/-- The rational value of a numeric `JValue` (0 otherwise). -/
def JValue.numVal : JValue → ℚ
  | .int n => (n : ℚ)
  | .float q => q
  | _ => 0

/-- Python truthiness of a JSON value. -/
def JValue.truthy : JValue → Bool
  | .null => false
  | .bool b => b
  | .int n => decide (n ≠ 0)
  | .float q => decide (q ≠ 0)
  | .str s => decide (s ≠ "")
  | .arr xs => !xs.isEmpty
  | .obj fs => !fs.isEmpty

/-- Python `v == s` for a string literal `s` (false on every non-string). -/
def jEqStr (v : JValue) (s : String) : Bool :=
  match v with
  | .str t => t = s
  | _ => false

/-- Python `v in SET_OF_STRINGS`. -/
def jInStrs (v : JValue) (ss : List String) : Bool :=
  match v with
  | .str t => ss.contains t
  | _ => false

/-- Python `s.startswith(pre)`. -/
def strStartsWith (pre s : String) : Bool :=
  List.isPrefixOf pre.toList s.toList

/-- Python `pat in s` (substring containment). -/
def strContainsSub (s pat : String) : Bool :=
  (List.range (s.toList.length + 1)).any
    (fun i => List.isPrefixOf pat.toList (s.toList.drop i))

/-- Python `s.strip()`: leading and trailing whitespace removed. -/
def pyStrip (s : String) : String :=
  ⟨((s.toList.dropWhile Char.isWhitespace).reverse.dropWhile
      Char.isWhitespace).reverse⟩

/-- Python `s.lower()` over the ASCII range. -/
def pyLower (s : String) : String :=
  ⟨s.toList.map Char.toLower⟩

def ALLOWED_AUDIENCES : List String := ["designer", "developer", "both"]
def ALLOWED_INTENDED_USE : List String :=
  ["internal_exploration", "client_work", "rebuild_baseline"]
def ALLOWED_CRAWL_MODES : List String :=
  ["representative_sample", "bounded_full", "custom_urls", "sitemap"]
def ALLOWED_FALLBACKS : List String :=
  ["suggest_candidates", "mark_unknown", "infer_ranges"]
def DEFAULT_EXCLUDE_HINTS : List String :=
  ["/legal", "/privacy", "/terms", "/careers", "/login"]

/-- The source function `is_http_url`: a string starting with `http://` or
`https://`. -/
def is_http_url : JValue → Bool
  | .str s => strStartsWith "http://" s || strStartsWith "https://" s
  | _ => false

/-- The checker `expect_bool(obj, key, path, errors)`: the errors it appends. -/
def expect_bool (obj : JObj) (key path : String) : List String :=
  if !obj.hasKey key then
    [path ++ "." ++ key ++ ": missing required boolean"]
  else if !(obj.getPy key).isBool then
    [path ++ "." ++ key ++ ": must be boolean"]
  else []

/-- The type test of `expect_number`: `isinstance(value, int) and not
isinstance(value, bool)`, or additionally `isinstance(value, float)` when
`integer` is false. -/
def numOkType (v : JValue) (integer : Bool) : Bool :=
  match v with
  | .int _ => true
  | .float _ => !integer
  | _ => false

/-- The checker `expect_number(obj, key, path, errors, minimum, integer)`: the errors it
appends.  The minimum carries both its rational value and the string Python
interpolates into the message (`1`, `0`, `0.1`, `0.0`). -/
def expect_number (obj : JObj) (key path : String)
    (minimum : Option (ℚ × String)) (integer : Bool) : List String :=
  if !obj.hasKey key then
    [path ++ "." ++ key ++ ": missing required number"]
  else if !numOkType (obj.getPy key) integer then
    [path ++ "." ++ key ++ ": must be a number"]
  else
    match minimum with
    | some (m, mstr) =>
      if (obj.getPy key).numVal < m then
        [path ++ "." ++ key ++ ": must be >= " ++ mstr]
      else []
    | none => []

/-- The validator `validate_project(cfg, errors, warnings)`: the (errors, warnings) it
appends, in program order. -/
def validate_project (cfg : JObj) : List String × List String :=
  match cfg.getPy "project" with
  | .obj p =>
    let nameErr :=
      match JObj.getPy p "name" with
      | .str s => if pyStrip s = "" then ["project.name: must be a non-empty string"] else []
      | _ => ["project.name: must be a non-empty string"]
    let sourceUrl := JObj.getPy p "source_url"
    let urlFindings :=
      if !is_http_url sourceUrl then
        (["project.source_url: must be a public http(s) URL"], ([] : List String))
      else
        match sourceUrl with
        | .str s =>
          if strContainsSub s "localhost" || strContainsSub s "127.0.0.1" then
            ([], ["project.source_url: looks local/private; this skill is for public websites only"])
          else ([], [])
        | _ => ([], [])
    let audienceErr :=
      if !jInStrs (JObj.getPy p "output_audience") ALLOWED_AUDIENCES then
        ["project.output_audience: must be one of [\x27both\x27, \x27designer\x27, \x27developer\x27]"]
      else []
    let intendedErr :=
      if !jInStrs (JObj.getPy p "intended_use") ALLOWED_INTENDED_USE then
        ["project.intended_use: must be one of [\x27client_work\x27, \x27internal_exploration\x27, \x27rebuild_baseline\x27]"]
      else []
    (nameErr ++ urlFindings.1 ++ audienceErr ++ intendedErr, urlFindings.2)
  | _ => (["project: missing required object"], [])

/-- The `custom_urls` conditional block of `validate_scope`. -/
def scope_custom_urls_findings (s : JObj) : List String × List String :=
  if jEqStr (JObj.getPy s "crawl_mode") "custom_urls" then
    match JObj.getPy s "custom_urls" with
    | .arr us =>
      if us.isEmpty then
        (["scope.custom_urls: required non-empty list when crawl_mode=custom_urls"], [])
      else if !us.all is_http_url then
        (["scope.custom_urls: all entries must be http(s) URLs"], [])
      else ([], [])
    | _ => (["scope.custom_urls: required non-empty list when crawl_mode=custom_urls"], [])
  else if s.hasKey "custom_urls" && (JObj.getPy s "custom_urls").truthy then
    ([], ["scope.custom_urls: ignored unless crawl_mode=custom_urls"])
  else ([], [])

/-- The `sitemap_url` conditional block of `validate_scope`. -/
def scope_sitemap_findings (s : JObj) : List String × List String :=
  if jEqStr (JObj.getPy s "crawl_mode") "sitemap" then
    if !is_http_url (JObj.getPy s "sitemap_url") then
      (["scope.sitemap_url: required http(s) URL when crawl_mode=sitemap"], [])
    else ([], [])
  else if s.hasKey "sitemap_url" && (JObj.getPy s "sitemap_url").truthy then
    ([], ["scope.sitemap_url: ignored unless crawl_mode=sitemap"])
  else ([], [])

/-- The `exclude_paths` block of `validate_scope`. -/
def scope_exclude_paths_findings (s : JObj) : List String × List String :=
  match JObj.getPy s "exclude_paths" with
  | .arr xs =>
    if xs.all JValue.isStr then
      if DEFAULT_EXCLUDE_HINTS.any (fun h => xs.any (fun x => jEqStr x h)) then
        ([], [])
      else
        ([], ["scope.exclude_paths: does not include common low-value paths (/legal,/privacy,/terms,/careers,/login)"])
    else (["scope.exclude_paths: must be a list of strings"], [])
  | _ => (["scope.exclude_paths: must be a list of strings"], [])

/-- The validator `validate_scope(cfg, errors, warnings)`: the (errors, warnings) it
appends, in program order. -/
def validate_scope (cfg : JObj) : List String × List String :=
  match cfg.getPy "scope" with
  | .obj s =>
    let cmErr :=
      if !jInStrs (JObj.getPy s "crawl_mode") ALLOWED_CRAWL_MODES then
        ["scope.crawl_mode: must be one of [\x27bounded_full\x27, \x27custom_urls\x27, \x27representative_sample\x27, \x27sitemap\x27]"]
      else []
    let e1 := expect_number s "max_pages" "scope" (some (1, "1")) true
    let e2 := expect_number s "max_depth" "scope" (some (0, "0")) true
    let e3 := expect_bool s "include_subdomains" "scope"
    let e4 := expect_bool s "respect_robots_txt" "scope"
    let e5 := expect_number s "crawl_delay_ms" "scope" (some (0, "0")) true
    let e6 := expect_number s "requests_per_second" "scope" (some (mkRat 1 10, "0.1")) false
    let ep := scope_exclude_paths_findings s
    let cu := scope_custom_urls_findings s
    let sm := scope_sitemap_findings s
    (cmErr ++ e1 ++ e2 ++ e3 ++ e4 ++ e5 ++ e6 ++ ep.1 ++ cu.1 ++ sm.1,
     ep.2 ++ cu.2 ++ sm.2)
  | _ => (["scope: missing required object"], [])

/-- The `screenshots` block of `validate_capture`. -/
def capture_screenshots_findings (c : JObj) : List String × List String :=
  match JObj.getPy c "screenshots" with
  | .obj ss =>
    let boolErrs :=
      ((["desktop", "mobile", "tablet"].filter
          (fun k => JObj.hasKey ss k && !(JObj.getPy ss k).isBool)).map
        (fun k => "capture.screenshots." ++ k ++ ": must be boolean"))
    let desktopErr :=
      if !(JObj.getPy ss "desktop").isTrue then
        ["capture.screenshots.desktop: must be true (required)"]
      else []
    let mobileWarn :=
      if !(JObj.getPy ss "mobile").isTrue then
        ["capture.screenshots.mobile: recommended true for better visual hierarchy coverage"]
      else []
    (boolErrs ++ desktopErr, mobileWarn)
  | _ => (["capture.screenshots: missing required object"], [])

/-- The validator `validate_capture(cfg, errors, warnings)`: the (errors, warnings) it
appends, in program order. -/
def validate_capture (cfg : JObj) : List String × List String :=
  match cfg.getPy "capture" with
  | .obj c =>
    let ss := capture_screenshots_findings c
    let reqBools :=
      List.flatten ((["html", "css", "text", "asset_metadata", "component_candidates"]).map
        (fun k => expect_bool c k "capture"))
    let ccsErr :=
      if JObj.hasKey c "computed_css_samples" && !(JObj.getPy c "computed_css_samples").isBool then
        ["capture.computed_css_samples: must be boolean if provided"]
      else []
    let cssWarn :=
      if (JObj.getPy c "css").isFalse then
        ["capture.css: disabling CSS reduces token extraction quality"]
      else []
    let textWarn :=
      if (JObj.getPy c "text").isFalse then
        ["capture.text: disabling text reduces voice DNA extraction quality"]
      else []
    (ss.1 ++ reqBools ++ ccsErr, ss.2 ++ cssWarn ++ textWarn)
  | _ => (["capture: missing required object"], [])

/-- The range checks on `canonical_token_confidence_threshold`
(lines 176–181 of the source): over-range error first, else
under-recommendation warning. -/
def quality_threshold_findings (q : JObj) : List String × List String :=
  let threshold := JObj.getPy q "canonical_token_confidence_threshold"
  if threshold.isNum then
    if threshold.numVal > 1 then
      (["quality.canonical_token_confidence_threshold: must be <= 1"], [])
    else if threshold.numVal < mkRat 7 10 then
      ([], ["quality.canonical_token_confidence_threshold: below recommended default 0.70"])
    else ([], [])
  else ([], [])

/-- The validator `validate_quality(cfg, errors, warnings)`: the (errors, warnings) it
appends, in program order. -/
def validate_quality (cfg : JObj) : List String × List String :=
  match cfg.getPy "quality" with
  | .obj q =>
    let e1 := expect_number q "canonical_token_confidence_threshold" "quality"
      (some (0, "0.0")) false
    let thr := quality_threshold_findings q
    let fbErr :=
      if !jInStrs (JObj.getPy q "low_confidence_fallback") ALLOWED_FALLBACKS then
        ["quality.low_confidence_fallback: must be one of [\x27infer_ranges\x27, \x27mark_unknown\x27, \x27suggest_candidates\x27]"]
      else []
    let reqBools :=
      List.flatten ((["require_contrast_checks", "require_anti_pattern_report", "require_pnie_matrix"]).map
        (fun k => expect_bool q k "quality"))
    (e1 ++ thr.1 ++ fbErr ++ reqBools, thr.2)
  | _ => (["quality: missing required object"], [])

def GUARDRAIL_KEYS : List String :=
  ["public_access_confirmed", "non_clone_intent_confirmed", "asset_rights_warning_confirmed"]

/-- The validator `validate_guardrails(cfg, errors)`: the errors it appends (this
validator takes no warnings list). -/
def validate_guardrails (cfg : JObj) : List String :=
  let modeErr :=
    if !jEqStr (cfg.getPy "mode") "brand_faithful_modernization" then
      ["mode: must equal \x27brand_faithful_modernization\x27"]
    else []
  let gErrs :=
    match cfg.getPy "guardrails" with
    | .null => []
    | .obj g =>
      (GUARDRAIL_KEYS.filter
          (fun k => JObj.hasKey g k && !(JObj.getPy g k).isBool)).map
        (fun k => "guardrails." ++ k ++ ": must be boolean")
    | _ => ["guardrails: must be an object if provided"]
  modeErr ++ gErrs

/-- The validator `validate_output(cfg, warnings)`: the warnings it appends (this
validator appends no errors). -/
def validate_output (cfg : JObj) : List String :=
  match cfg.getPy "output" with
  | .null => []
  | .obj o =>
    match JObj.getPy o "formats" with
    | .obj f =>
      if (JObj.getPy f "markdown").isFalse || (JObj.getPy f "json").isFalse then
        ["output.formats: markdown and json are required by this skill"]
      else []
    | _ => []
  | _ => ["output: should be an object if provided"]

/-- The strict-guardrails escalation pass of `main`
(lines 250–257 of the source). -/
def strict_guardrails_pass (cfg : JObj) : List String :=
  match cfg.getPy "guardrails" with
  | .obj g =>
    (GUARDRAIL_KEYS.filter (fun k => !(JObj.getPy g k).isTrue)).map
      (fun k => "guardrails." ++ k ++ ": must be true before crawling")
  | _ => ["guardrails: required when --strict-guardrails is set"]

/-- The validation phase of `main` after a top-level object has been
loaded: the accumulated (errors, warnings) in emission order. -/
def run_validator (strict : Bool) (cfg : JObj) : List String × List String :=
  let g := validate_guardrails cfg
  let p := validate_project cfg
  let s := validate_scope cfg
  let c := validate_capture cfg
  let q := validate_quality cfg
  let o := validate_output cfg
  let st := if strict then strict_guardrails_pass cfg else []
  (g ++ p.1 ++ s.1 ++ c.1 ++ q.1 ++ st, p.2 ++ s.2 ++ c.2 ++ q.2 ++ o)

/-- The process exit code of `main` for a loaded top-level object. -/
def exit_code (strict : Bool) (cfg : JObj) : Nat :=
  if (run_validator strict cfg).1 ≠ [] then 1 else 0

/-- The final summary line printed by `main`. -/
def final_line (strict : Bool) (cfg : JObj) : String :=
  let r := run_validator strict cfg
  if r.1 ≠ [] then
    "Config validation failed (" ++ toString r.1.length ++ " error(s), " ++
      toString r.2.length ++ " warning(s))"
  else
    "Config validation passed (" ++ toString r.2.length ++ " warning(s))"

/-- Running the validator `n` times on the same unchanged configuration
(modelling repeated CLI invocations on the same input). -/
def run_validator_repeated (strict : Bool) (cfg : JObj) (n : Nat) :
    List (List String × List String) :=
  (List.range n).map (fun _ => run_validator strict cfg)

/-!
Embedding of `validate_output_package.py`.  The filesystem is an oracle:
`pathExists` models `Path.exists`, `parseJson` models `parse_json` (which
reads the file and catches every exception), and `readText` models
`Path.read_text` on the two report files that are known to exist once the
missing-file phase has passed.
-/

structure FileSystem where
  pathExists : String → Bool
  parseJson : String → Except String JValue
  readText : String → String

def REQUIRED_PATHS : List String := [
  "reports/executive-summary.md",
  "reports/source-audit.md",
  "reports/brand-dna.md",
  "reports/accessibility-audit.md",
  "reports/preserve-normalize-improve-exclude.md",
  "tokens/tokens.json",
  "tokens/tokens.css",
  "tokens/tailwind.theme.js",
  "components/component-library-spec.md",
  "components/component-contracts.json",
  "patterns/page-template-patterns.md",
  "evidence/crawl-manifest.json",
  "evidence/page-weights.json",
  "evidence/extraction-confidence.json"]

/-- The pathlib join `root / rel`, rendered as the path string the script
prints and hands to the filesystem. -/
def joinPath (root rel : String) : String := root ++ "/" ++ rel

/-- Python `repr` of a list of strings, as interpolated into messages. -/
def pyStrListRepr (xs : List String) : String :=
  "[" ++ String.intercalate ", " (xs.map (fun s => "\x27" ++ s ++ "\x27")) ++ "]"

/-- The checker `require_keys(obj, keys, path, errors)`: the errors it appends. -/
def require_keys (obj : JObj) (keys : List String) (path : String) : List String :=
  let missing := keys.filter (fun k => !obj.hasKey k)
  if !missing.isEmpty then
    [path ++ ": missing keys " ++ pyStrListRepr missing]
  else []

/-- Phase 1 of the output-package checker: the `Missing required file`
errors for the fixed required path list. -/
def missing_required_errors (fs : FileSystem) (root : String) : List String :=
  (REQUIRED_PATHS.filter (fun rel => !fs.pathExists (joinPath root rel))).map
    (fun rel => "Missing required file: " ++ joinPath root rel)

/-- The shape check of one JSON evidence file: parse failure and non-object
top level are errors, then `require_keys` runs on the object. -/
def json_required_keys_findings (fs : FileSystem) (p : String)
    (keys : List String) : List String :=
  match fs.parseJson p with
  | .error e => [p ++ ": invalid JSON (" ++ e ++ ")"]
  | .ok (.obj d) => require_keys d keys p
  | .ok _ => [p ++ ": expected top-level object"]

/-- The `tokens/tokens.json` check: parse failure and non-object top level
are errors; missing recommended token groups are only a warning. -/
def tokens_json_findings (fs : FileSystem) (p : String) :
    List String × List String :=
  match fs.parseJson p with
  | .error e => ([p ++ ": invalid JSON (" ++ e ++ ")"], [])
  | .ok (.obj d) =>
    let expectedTop := ["color", "typography", "spacing", "radius", "shadow",
      "border", "motion", "layout"]
    let missing := expectedTop.filter (fun k => !JObj.hasKey d k)
    if !missing.isEmpty then
      ([], [p ++ ": missing recommended token groups " ++ pyStrListRepr missing])
    else ([], [])
  | .ok _ => ([p ++ ": expected top-level object"], [])

/-- The report-content substring checks (PNIE terms and the non-derivative
guardrail markers): warnings only. -/
def report_content_warnings (fs : FileSystem) (root : String) : List String :=
  let pnie := fs.readText (joinPath root "reports/preserve-normalize-improve-exclude.md")
  let pnieWarns :=
    (((["Preserve", "Normalize", "Improve", "Exclude"]).filter
        (fun t => !strContainsSub pnie t)).map
      (fun t => "PNIE report does not mention \x27" ++ t ++ "\x27"))
  let summary := fs.readText (joinPath root "reports/executive-summary.md")
  let markers := ["not a clone", "brand-faithful", "normalize", "must not be copied"]
  let summaryWarns :=
    if !markers.any (fun m => strContainsSub (pyLower summary) m) then
      ["Executive summary may be missing explicit non-derivative guardrail language"]
    else []
  pnieWarns ++ summaryWarns

/-- Phase 2 of the output-package checker (reached only when no required
file is missing): the content-inspection (errors, warnings). -/
def content_findings (fs : FileSystem) (root : String) :
    List String × List String :=
  let tk := tokens_json_findings fs (joinPath root "tokens/tokens.json")
  let mf := json_required_keys_findings fs (joinPath root "evidence/crawl-manifest.json")
    ["source_url", "crawl_mode", "pages"]
  let pw := json_required_keys_findings fs (joinPath root "evidence/page-weights.json")
    ["clusters", "pages"]
  let cf := json_required_keys_findings fs (joinPath root "evidence/extraction-confidence.json")
    ["threshold"]
  (tk.1 ++ mf ++ pw ++ cf, tk.2 ++ report_content_warnings fs root)

structure PackageResult where
  exitCode : Nat
  errors : List String
  warnings : List String
  summary : String
deriving Repr, DecidableEq

/-- The function `main` of `validate_output_package.py` over the filesystem oracle. -/
def validate_output_package (fs : FileSystem) (root : String) : PackageResult :=
  let missing := missing_required_errors fs root
  if !missing.isEmpty then
    { exitCode := 1, errors := missing, warnings := [],
      summary := "Validation failed (" ++ toString missing.length ++
        " missing required files)" }
  else
    let c := content_findings fs root
    if !c.1.isEmpty then
      { exitCode := 1, errors := c.1, warnings := c.2,
        summary := "Validation failed (" ++ toString c.1.length ++ " error(s), " ++
          toString c.2.length ++ " warning(s))" }
    else
      { exitCode := 0, errors := [], warnings := c.2,
        summary := "Validation passed with " ++ toString c.2.length ++ " warning(s)" }

/-!
Concrete inputs used by witnesses and test examples.
-/

/-- A fully valid minimal configuration: correct mode, all required
sections present and well typed, `screenshots.desktop = true`, and no
warning-triggering value. -/
def cfg_valid : JObj := [
  ("mode", JValue.str "brand_faithful_modernization"),
  ("project", JValue.obj [
    ("name", JValue.str "Acme redesign"),
    ("source_url", JValue.str "https://acme.example"),
    ("output_audience", JValue.str "both"),
    ("intended_use", JValue.str "client_work")]),
  ("scope", JValue.obj [
    ("crawl_mode", JValue.str "representative_sample"),
    ("max_pages", JValue.int 50),
    ("max_depth", JValue.int 2),
    ("include_subdomains", JValue.bool false),
    ("respect_robots_txt", JValue.bool true),
    ("crawl_delay_ms", JValue.int 1000),
    ("requests_per_second", JValue.float 1),
    ("exclude_paths", JValue.arr [JValue.str "/legal"])]),
  ("capture", JValue.obj [
    ("screenshots", JValue.obj [
      ("desktop", JValue.bool true),
      ("mobile", JValue.bool true),
      ("tablet", JValue.bool false)]),
    ("html", JValue.bool true),
    ("css", JValue.bool true),
    ("text", JValue.bool true),
    ("asset_metadata", JValue.bool true),
    ("component_candidates", JValue.bool true)]),
  ("quality", JValue.obj [
    ("canonical_token_confidence_threshold", JValue.float (mkRat 7 10)),
    ("low_confidence_fallback", JValue.str "mark_unknown"),
    ("require_contrast_checks", JValue.bool true),
    ("require_anti_pattern_report", JValue.bool true),
    ("require_pnie_matrix", JValue.bool true)])]

/-- The guardrails object of the spec example: two confirmations true, the
asset-rights one false. -/
def guardrails_two_true_one_false : JObj := [
  ("public_access_confirmed", JValue.bool true),
  ("non_clone_intent_confirmed", JValue.bool true),
  ("asset_rights_warning_confirmed", JValue.bool false)]

/-- The configuration `cfg_valid` extended with the example guardrails object. -/
def cfg_guardrails_example : JObj :=
  cfg_valid ++ [("guardrails", JValue.obj guardrails_two_true_one_false)]

/-- A filesystem on which every path is missing and the two content
oracles answer one way. -/
def fs_all_missing_a : FileSystem :=
  { pathExists := fun _ => false,
    parseJson := fun _ => Except.error "unreadable",
    readText := fun _ => "" }

/-- A filesystem with the same `pathExists` oracle as `fs_all_missing_a`
but different content oracles. -/
def fs_all_missing_b : FileSystem :=
  { pathExists := fun _ => false,
    parseJson := fun _ => Except.ok (JValue.obj []),
    readText := fun _ => "Preserve Normalize Improve Exclude not a clone" }

/-- A filesystem where every required file exists and every content check
that can block passes. -/
def fs_ok : FileSystem :=
  { pathExists := fun _ => true,
    parseJson := fun p =>
      if p = "out/evidence/crawl-manifest.json" then
        Except.ok (JValue.obj [("source_url", JValue.null), ("crawl_mode", JValue.null),
          ("pages", JValue.null)])
      else if p = "out/evidence/page-weights.json" then
        Except.ok (JValue.obj [("clusters", JValue.null), ("pages", JValue.null)])
      else if p = "out/evidence/extraction-confidence.json" then
        Except.ok (JValue.obj [("threshold", JValue.null)])
      else
        Except.ok (JValue.obj [("color", JValue.null)]),
    readText := fun _ => "Preserve Normalize Improve Exclude; this is not a clone" }

/-- Every error message `validate_scope` can emit other than those of the
`custom_urls` and `sitemap_url` conditional blocks. -/
def scope_other_error_msgs : List String := [
  "scope.crawl_mode: must be one of [\x27bounded_full\x27, \x27custom_urls\x27, \x27representative_sample\x27, \x27sitemap\x27]",
  "scope.max_pages: missing required number",
  "scope.max_pages: must be a number",
  "scope.max_pages: must be >= 1",
  "scope.max_depth: missing required number",
  "scope.max_depth: must be a number",
  "scope.max_depth: must be >= 0",
  "scope.include_subdomains: missing required boolean",
  "scope.include_subdomains: must be boolean",
  "scope.respect_robots_txt: missing required boolean",
  "scope.respect_robots_txt: must be boolean",
  "scope.crawl_delay_ms: missing required number",
  "scope.crawl_delay_ms: must be a number",
  "scope.crawl_delay_ms: must be >= 0",
  "scope.requests_per_second: missing required number",
  "scope.requests_per_second: must be a number",
  "scope.requests_per_second: must be >= 0.1",
  "scope.exclude_paths: must be a list of strings"]

/-- Scope section with `crawl_mode=custom_urls` and an empty `custom_urls`. -/
def scope_custom_empty : JObj :=
  [("crawl_mode", JValue.str "custom_urls"), ("custom_urls", JValue.arr [])]

/-- Scope section with `crawl_mode=custom_urls` and a non-URL entry. -/
def scope_custom_bad_url : JObj :=
  [("crawl_mode", JValue.str "custom_urls"),
   ("custom_urls", JValue.arr [JValue.str "ftp://a"])]

/-- Scope section with `crawl_mode=representative_sample` and a stray
non-empty `custom_urls`. -/
def scope_stray_custom : JObj :=
  [("crawl_mode", JValue.str "representative_sample"),
   ("custom_urls", JValue.arr [JValue.str "http://a"])]

/-- Scope section with `crawl_mode=sitemap` and a non-HTTP `sitemap_url`. -/
def scope_bad_sitemap : JObj :=
  [("crawl_mode", JValue.str "sitemap"), ("sitemap_url", JValue.str "nota")]

/-- Scope section with `crawl_mode=representative_sample` and a stray
non-empty `sitemap_url`. -/
def scope_stray_sitemap : JObj :=
  [("crawl_mode", JValue.str "representative_sample"),
   ("sitemap_url", JValue.str "https://a/sitemap.xml")]

/-- Capture section whose `screenshots.desktop` is present but not boolean. -/
def capture_desktop_not_bool : JObj :=
  [("screenshots", JValue.obj [("desktop", JValue.int 1)])]

/-- Quality section with a negative threshold. -/
def quality_negative_threshold : JObj :=
  [("canonical_token_confidence_threshold", JValue.float (mkRat (-1) 2))]

/-- Scope section with `crawl_mode=custom_urls` and no `custom_urls` key. -/
def scope_custom_missing : JObj :=
  [("crawl_mode", JValue.str "custom_urls")]

/-- Quality section with a threshold above 1. -/
def quality_thr_high : JObj :=
  [("canonical_token_confidence_threshold", JValue.float (mkRat 12 10))]

/-- Quality section with a threshold below 0.7 (but at most 1). -/
def quality_thr_low : JObj :=
  [("canonical_token_confidence_threshold", JValue.float (mkRat 1 2))]

/-- Quality section with a threshold in the recommended range. -/
def quality_thr_ok : JObj :=
  [("canonical_token_confidence_threshold", JValue.float (mkRat 8 10))]

/-!
Helper lemmas.
-/

theorem JObj.hasKey_of_getPy_ne_null {o : JObj} {k : String}
    (h : o.getPy k ≠ JValue.null) : o.hasKey k = true := by
  unfold JObj.getPy at h
  unfold JObj.hasKey
  cases hl : o.lookup k with
  | none => rw [hl] at h; exact absurd rfl h
  | some v => simp

theorem JValue.ne_null_of_isNum {v : JValue} (h : v.isNum = true) :
    v ≠ JValue.null := by
  cases v <;> simp_all [JValue.isNum]

theorem numOkType_false_of_isNum {v : JValue} (h : v.isNum = true) :
    numOkType v false = true := by
  cases v <;> simp_all [JValue.isNum, numOkType]

theorem JValue.isTrue_eq_false_of_not_isBool {v : JValue}
    (h : v.isBool = false) : v.isTrue = false := by
  cases v <;> simp_all [JValue.isBool, JValue.isTrue]

theorem mem_expect_bool {o : JObj} {k p x : String}
    (hx : x ∈ expect_bool o k p) :
    x = p ++ "." ++ k ++ ": missing required boolean" ∨
    x = p ++ "." ++ k ++ ": must be boolean" := by
  unfold expect_bool at hx
  split at hx
  · simp at hx; exact Or.inl hx
  · split at hx
    · simp at hx; exact Or.inr hx
    · simp at hx

theorem mem_expect_number {o : JObj} {k p : String}
    {mn : Option (ℚ × String)} {i : Bool} {x : String}
    (hx : x ∈ expect_number o k p mn i) :
    x = p ++ "." ++ k ++ ": missing required number" ∨
    x = p ++ "." ++ k ++ ": must be a number" ∨
    ∃ ms : String, (∃ m : ℚ, mn = some (m, ms)) ∧
      x = p ++ "." ++ k ++ ": must be >= " ++ ms := by
  unfold expect_number at hx
  split at hx
  · simp at hx; exact Or.inl hx
  · split at hx
    · simp at hx; exact Or.inr (Or.inl hx)
    · cases mn with
      | none => simp at hx
      | some pr =>
        obtain ⟨m, ms⟩ := pr
        simp at hx
        exact Or.inr (Or.inr ⟨ms, ⟨m, rfl⟩, hx.2⟩)

theorem expect_bool_of_isNum {o : JObj} {k p : String} {v : JValue}
    (hv : JObj.getPy o k = v) (hn : v.isNum = true) :
    expect_bool o k p = [p ++ "." ++ k ++ ": must be boolean"] := by
  have hk : o.hasKey k = true :=
    JObj.hasKey_of_getPy_ne_null (hv ▸ JValue.ne_null_of_isNum hn)
  have hb : (JObj.getPy o k).isBool = false := by
    rw [hv]; cases v <;> simp_all [JValue.isNum, JValue.isBool]
  simp [expect_bool, hk, hb]

theorem expect_number_of_bool {o : JObj} {k p : String}
    {mn : Option (ℚ × String)} {i : Bool} {b : Bool}
    (hv : JObj.getPy o k = JValue.bool b) :
    expect_number o k p mn i = [p ++ "." ++ k ++ ": must be a number"] := by
  have hk : o.hasKey k = true :=
    JObj.hasKey_of_getPy_ne_null (by rw [hv]; exact fun h => JValue.noConfusion h)
  have ht : numOkType (JObj.getPy o k) i = false := by
    rw [hv]; rfl
  simp [expect_number, hk, ht]

theorem expect_number_int_of_float {o : JObj} {k p : String}
    {mn : Option (ℚ × String)} {q : ℚ}
    (hv : JObj.getPy o k = JValue.float q) :
    expect_number o k p mn true = [p ++ "." ++ k ++ ": must be a number"] := by
  have hk : o.hasKey k = true :=
    JObj.hasKey_of_getPy_ne_null (by rw [hv]; exact fun h => JValue.noConfusion h)
  have ht : numOkType (JObj.getPy o k) true = false := by
    rw [hv]; rfl
  simp [expect_number, hk, ht]

theorem expect_number_below_min {o : JObj} {k p : String} {m : ℚ} {ms : String}
    {i : Bool} {v : JValue}
    (hv : JObj.getPy o k = v) (hn : numOkType v i = true) (hm : v.numVal < m) :
    expect_number o k p (some (m, ms)) i =
      [p ++ "." ++ k ++ ": must be >= " ++ ms] := by
  have hnull : v ≠ JValue.null := by
    cases v <;> simp_all [numOkType]
  have hk : o.hasKey k = true :=
    JObj.hasKey_of_getPy_ne_null (hv ▸ hnull)
  simp [expect_number, hk, hv, hn, hm]

/-!
Claim theorems.
-/

/-- Claim C1: for every configuration, the validator exits rejected (exit
code 1) iff the accumulated error list is non-empty at the end of the run;
warnings alone never block, and an accepted run exits 0 reporting the
warning count. -/
theorem exit_rejected_iff_errors (strict : Bool) (cfg : JObj) :
    (exit_code strict cfg = 1 ↔ (run_validator strict cfg).1 ≠ []) ∧
    (exit_code strict cfg = 0 ↔ (run_validator strict cfg).1 = []) ∧
    ((run_validator strict cfg).1 = [] →
      exit_code strict cfg = 0 ∧
      final_line strict cfg =
        "Config validation passed (" ++
          toString (run_validator strict cfg).2.length ++ " warning(s))") := by
  unfold exit_code final_line
  by_cases h : (run_validator strict cfg).1 = [] <;> simp [h]

/-- Witness for C1 on the fully valid configuration: it is accepted with
exit code 0 and zero warnings reported. -/
theorem exit_rejected_iff_errors_witness :
    exit_code false cfg_valid = 0 ∧
    final_line false cfg_valid = "Config validation passed (0 warning(s))" := by
  have h := (exit_rejected_iff_errors false cfg_valid).2.2 (by decide)
  exact ⟨h.1, h.2.trans (by decide)⟩

/-- Claim C6: all six section validators run exactly once per invocation
regardless of errors found in earlier sections (the accumulated findings
are exactly the concatenation of the findings of the six validators, each
applied once to the unchanged configuration), no exception escapes any
validator (every validator is a total function by construction), and a
missing or non-object required section produces exactly one error for
that section with no further findings from the validator of that section. -/
theorem all_sections_always_run (strict : Bool) (cfg : JObj) :
    ((run_validator strict cfg).1 =
      validate_guardrails cfg ++ (validate_project cfg).1 ++ (validate_scope cfg).1 ++
        (validate_capture cfg).1 ++ (validate_quality cfg).1 ++
        (if strict then strict_guardrails_pass cfg else []) ∧
     (run_validator strict cfg).2 =
      (validate_project cfg).2 ++ (validate_scope cfg).2 ++ (validate_capture cfg).2 ++
        (validate_quality cfg).2 ++ validate_output cfg) ∧
    ((cfg.getPy "project").isDict = false →
      validate_project cfg = (["project: missing required object"], [])) ∧
    ((cfg.getPy "scope").isDict = false →
      validate_scope cfg = (["scope: missing required object"], [])) ∧
    ((cfg.getPy "capture").isDict = false →
      validate_capture cfg = (["capture: missing required object"], [])) ∧
    ((cfg.getPy "quality").isDict = false →
      validate_quality cfg = (["quality: missing required object"], [])) := by
  refine ⟨⟨rfl, rfl⟩, ?_, ?_, ?_, ?_⟩ <;> intro h
  · cases hv : cfg.getPy "project" <;>
      simp_all [validate_project, JValue.isDict]
  · cases hv : cfg.getPy "scope" <;>
      simp_all [validate_scope, JValue.isDict]
  · cases hv : cfg.getPy "capture" <;>
      simp_all [validate_capture, JValue.isDict]
  · cases hv : cfg.getPy "quality" <;>
      simp_all [validate_quality, JValue.isDict]

/-- Witness for C6 on the empty configuration, where every required
section is absent. -/
theorem all_sections_always_run_witness :
    validate_project [] = (["project: missing required object"], []) ∧
    validate_scope [] = (["scope: missing required object"], []) ∧
    validate_capture [] = (["capture: missing required object"], []) ∧
    validate_quality [] = (["quality: missing required object"], []) :=
  ⟨(all_sections_always_run false []).2.1 rfl,
   (all_sections_always_run false []).2.2.1 rfl,
   (all_sections_always_run false []).2.2.2.1 rfl,
   (all_sections_always_run false []).2.2.2.2 rfl⟩

/-- Claim C7: validation is deterministic and idempotent; any two runs of
the validator with the same strict flag on the same unchanged
configuration produce identical error lists and identical warning lists. -/
theorem validation_idempotent (strict : Bool) (cfg : JObj) (i j : Nat)
    (hi : i < 2) (hj : j < 2) :
    (run_validator_repeated strict cfg 2).getD i ([], []) =
    (run_validator_repeated strict cfg 2).getD j ([], []) := by
  unfold run_validator_repeated
  interval_cases i <;> interval_cases j <;> rfl

/-- Witness for C7: the first and second run on the guardrails example
configuration agree. -/
theorem validation_idempotent_witness :
    (run_validator_repeated true cfg_guardrails_example 2).getD 0 ([], []) =
    (run_validator_repeated true cfg_guardrails_example 2).getD 1 ([], []) :=
  validation_idempotent true cfg_guardrails_example 0 1 (by decide) (by decide)

/-- Claim C5: a boolean value never satisfies the numeric checker (its
output is exactly the type-mismatch error); a numeric value (such as 0 or
1) never satisfies the boolean checker (its output is exactly the
must-be-boolean error); a float at an integer-declared field is exactly
the type error; and an integer always passes the type test of a
non-integer numeric check (the checker output is exactly the
minimum-check result, with no type error). -/
theorem primitive_checker_type_strictness :
    (∀ (obj : JObj) (key path : String) (mn : Option (ℚ × String)) (integer b : Bool),
      JObj.getPy obj key = JValue.bool b →
      expect_number obj key path mn integer =
        [path ++ "." ++ key ++ ": must be a number"]) ∧
    (∀ (obj : JObj) (key path : String) (v : JValue),
      JObj.getPy obj key = v → v.isNum = true →
      expect_bool obj key path = [path ++ "." ++ key ++ ": must be boolean"]) ∧
    (∀ (obj : JObj) (key path : String) (mn : Option (ℚ × String)) (q : ℚ),
      JObj.getPy obj key = JValue.float q →
      expect_number obj key path mn true =
        [path ++ "." ++ key ++ ": must be a number"]) ∧
    (∀ (obj : JObj) (key path : String) (mn : Option (ℚ × String)) (n : Int),
      JObj.getPy obj key = JValue.int n →
      numOkType (JValue.int n) false = true ∧
      expect_number obj key path mn false =
        (match mn with
         | some (m, ms) =>
           if (n : ℚ) < m then [path ++ "." ++ key ++ ": must be >= " ++ ms] else []
         | none => [])) := by
  refine ⟨fun o k p mn i b hv => expect_number_of_bool hv,
          fun o k p v hv hn => expect_bool_of_isNum hv hn,
          fun o k p mn q hv => expect_number_int_of_float hv,
          fun o k p mn n hv => ⟨rfl, ?_⟩⟩
  have hk : o.hasKey k = true :=
    JObj.hasKey_of_getPy_ne_null (by rw [hv]; exact fun h => JValue.noConfusion h)
  have ht : numOkType (JObj.getPy o k) false = true := by rw [hv]; rfl
  simp only [expect_number, hk, ht, Bool.not_true, Bool.false_eq_true, if_false, hv]
  rfl

/-- Witness for C5 on concrete fields: a boolean at a numeric field, an
integer 0 at a boolean field, a float at an integer field, and an integer
at a float field. -/
theorem primitive_checker_type_strictness_witness :
    expect_number [("x", JValue.bool true)] "x" "s" (some (0, "0")) false =
      ["s.x: must be a number"] ∧
    expect_bool [("y", JValue.int 0)] "y" "s" = ["s.y: must be boolean"] ∧
    expect_number [("z", JValue.float (mkRat 1 2))] "z" "s" none true =
      ["s.z: must be a number"] ∧
    expect_number [("w", JValue.int 3)] "w" "s" (some (1, "1")) false = [] :=
  ⟨primitive_checker_type_strictness.1 _ "x" "s" _ false true rfl,
   primitive_checker_type_strictness.2.1 _ "y" "s" (JValue.int 0) rfl rfl,
   primitive_checker_type_strictness.2.2.1 _ "z" "s" none (mkRat 1 2) rfl,
   by
    have h := (primitive_checker_type_strictness.2.2.2 [("w", JValue.int 3)]
      "w" "s" (some (1, "1")) 3 rfl).2
    rw [h]; norm_num⟩

theorem mem_ite_singleton {x a : String} {c : Prop} [Decidable c]
    (h : x ∈ if c then [a] else ([] : List String)) : x = a := by
  split at h <;> simp_all

theorem mem_flatten_expect_bool {q : JObj} {p x : String} {keys : List String}
    (h : x ∈ List.flatten (keys.map (fun k => expect_bool q k p))) :
    ∃ k ∈ keys, x = p ++ "." ++ k ++ ": missing required boolean" ∨
      x = p ++ "." ++ k ++ ": must be boolean" := by
  rw [List.mem_flatten] at h
  obtain ⟨l, hl, hx⟩ := h
  rw [List.mem_map] at hl
  obtain ⟨k, hk, rfl⟩ := hl
  exact ⟨k, hk, mem_expect_bool hx⟩

/-- Claim C2: in strict mode a non-object (including absent) `guardrails`
produces exactly the strict error, each confirmation key that is not
exactly `true` produces an error naming that key, and on the spec example
(two keys true, one false) the strict pass emits exactly one error while
the base pass emits zero guardrails errors. -/
theorem strict_guardrails_escalation :
    (∀ cfg : JObj, (JObj.getPy cfg "guardrails").isDict = false →
      strict_guardrails_pass cfg =
        ["guardrails: required when --strict-guardrails is set"]) ∧
    (∀ (cfg g : JObj) (k : String),
      JObj.getPy cfg "guardrails" = JValue.obj g →
      k ∈ GUARDRAIL_KEYS → (JObj.getPy g k).isTrue = false →
      ("guardrails." ++ k ++ ": must be true before crawling")
        ∈ strict_guardrails_pass cfg) ∧
    (∀ cfg : JObj,
      JObj.getPy cfg "guardrails" = JValue.obj guardrails_two_true_one_false →
      strict_guardrails_pass cfg =
        ["guardrails.asset_rights_warning_confirmed: must be true before crawling"] ∧
      (validate_guardrails cfg).filter (fun e => strStartsWith "guardrails" e) = []) ∧
    ((run_validator false cfg_guardrails_example).1.filter
        (fun e => strStartsWith "guardrails" e) = [] ∧
     (run_validator true cfg_guardrails_example).1.filter
        (fun e => strStartsWith "guardrails" e) =
       ["guardrails.asset_rights_warning_confirmed: must be true before crawling"]) := by
  refine ⟨?_, ?_, ?_, by decide, by decide⟩
  · intro cfg h
    cases hv : JObj.getPy cfg "guardrails" <;>
      simp_all [strict_guardrails_pass, JValue.isDict]
  · intro cfg g k hg hk hkt
    simp only [strict_guardrails_pass, hg]
    exact List.mem_map.mpr ⟨k, List.mem_filter.mpr ⟨hk, by simp [hkt]⟩, rfl⟩
  · intro cfg hg
    constructor
    · simp only [strict_guardrails_pass, hg]
      decide
    · simp only [validate_guardrails, hg]
      cases hmode : jEqStr (JObj.getPy cfg "mode") "brand_faithful_modernization" <;>
        decide

/-- Witness for C2: the empty configuration in strict mode, and the
guardrails example configuration. -/
theorem strict_guardrails_escalation_witness :
    strict_guardrails_pass [] =
      ["guardrails: required when --strict-guardrails is set"] ∧
    ("guardrails.asset_rights_warning_confirmed: must be true before crawling"
      ∈ strict_guardrails_pass cfg_guardrails_example) ∧
    strict_guardrails_pass cfg_guardrails_example =
      ["guardrails.asset_rights_warning_confirmed: must be true before crawling"] ∧
    (validate_guardrails cfg_guardrails_example).filter
      (fun e => strStartsWith "guardrails" e) = [] :=
  ⟨strict_guardrails_escalation.1 [] rfl,
   strict_guardrails_escalation.2.1 cfg_guardrails_example
     guardrails_two_true_one_false "asset_rights_warning_confirmed"
     rfl (by decide) rfl,
   (strict_guardrails_escalation.2.2.1 cfg_guardrails_example rfl).1,
   (strict_guardrails_escalation.2.2.1 cfg_guardrails_example rfl).2⟩

/-- Claim C9: when `capture.screenshots` is an object whose `desktop` key
is present but not boolean, the capture validator emits both the
must-be-boolean and the must-be-true errors at
`capture.screenshots.desktop` in one run. -/
theorem capture_desktop_double_error (cfg c ss : JObj)
    (hc : JObj.getPy cfg "capture" = JValue.obj c)
    (hss : JObj.getPy c "screenshots" = JValue.obj ss)
    (hk : JObj.hasKey ss "desktop" = true)
    (hb : (JObj.getPy ss "desktop").isBool = false) :
    "capture.screenshots.desktop: must be boolean" ∈ (validate_capture cfg).1 ∧
    "capture.screenshots.desktop: must be true (required)" ∈ (validate_capture cfg).1 := by
  have hmem1 : "capture.screenshots.desktop: must be boolean"
      ∈ (capture_screenshots_findings c).1 := by
    simp only [capture_screenshots_findings, hss, List.mem_append]
    exact Or.inl (List.mem_map.mpr ⟨"desktop",
      List.mem_filter.mpr ⟨by decide, by simp [hk, hb]⟩, rfl⟩)
  have hmem2 : "capture.screenshots.desktop: must be true (required)"
      ∈ (capture_screenshots_findings c).1 := by
    have ht : (JObj.getPy ss "desktop").isTrue = false :=
      JValue.isTrue_eq_false_of_not_isBool hb
    simp only [capture_screenshots_findings, hss, List.mem_append]
    exact Or.inr (by simp [ht])
  refine ⟨?_, ?_⟩ <;> simp only [validate_capture, hc, List.mem_append]
  · exact Or.inl (Or.inl hmem1)
  · exact Or.inl (Or.inl hmem2)

/-- Witness for C9: `screenshots.desktop = 1` (a non-boolean). -/
theorem capture_desktop_double_error_witness :
    "capture.screenshots.desktop: must be boolean"
      ∈ (validate_capture [("capture", JValue.obj capture_desktop_not_bool)]).1 ∧
    "capture.screenshots.desktop: must be true (required)"
      ∈ (validate_capture [("capture", JValue.obj capture_desktop_not_bool)]).1 :=
  capture_desktop_double_error _ capture_desktop_not_bool
    [("desktop", JValue.int 1)] rfl rfl (by decide) (by decide)

/-- Claim C10: a numeric threshold below 0 triggers the unstated lower
bound error `must be >= 0.0`, in addition to the below-recommended-default
warning. -/
theorem quality_threshold_negative_lower_bound (cfg q : JObj) (v : JValue)
    (hq : JObj.getPy cfg "quality" = JValue.obj q)
    (hv : JObj.getPy q "canonical_token_confidence_threshold" = v)
    (hn : v.isNum = true) (hneg : v.numVal < 0) :
    "quality.canonical_token_confidence_threshold: must be >= 0.0"
      ∈ (validate_quality cfg).1 ∧
    "quality.canonical_token_confidence_threshold: below recommended default 0.70"
      ∈ (validate_quality cfg).2 := by
  have he1 : expect_number q "canonical_token_confidence_threshold" "quality"
      (some (0, "0.0")) false =
      ["quality.canonical_token_confidence_threshold: must be >= 0.0"] :=
    expect_number_below_min hv (numOkType_false_of_isNum hn) hneg
  have h1 : ¬ v.numVal > 1 := by
    intro h; exact absurd (lt_trans hneg (lt_trans one_pos h)) (lt_irrefl _)
  have h2 : v.numVal < mkRat 7 10 := by
    have hpos : (0 : ℚ) < mkRat 7 10 := by decide
    exact lt_trans hneg hpos
  have hthr : quality_threshold_findings q = ([],
      ["quality.canonical_token_confidence_threshold: below recommended default 0.70"]) := by
    simp [quality_threshold_findings, hv, hn, h1, h2]
  constructor
  · simp only [validate_quality, hq, List.mem_append, he1]
    exact Or.inl (by simp)
  · simp only [validate_quality, hq, hthr]
    simp

/-- Witness for C10: threshold `-0.5`. -/
theorem quality_threshold_negative_lower_bound_witness :
    "quality.canonical_token_confidence_threshold: must be >= 0.0"
      ∈ (validate_quality [("quality", JValue.obj quality_negative_threshold)]).1 ∧
    "quality.canonical_token_confidence_threshold: below recommended default 0.70"
      ∈ (validate_quality [("quality", JValue.obj quality_negative_threshold)]).2 :=
  quality_threshold_negative_lower_bound _ quality_negative_threshold
    (JValue.float (mkRat (-1) 2)) rfl rfl rfl (by decide)

theorem quality_warns_eq {cfg q : JObj}
    (hq : JObj.getPy cfg "quality" = JValue.obj q) :
    (validate_quality cfg).2 = (quality_threshold_findings q).2 := by
  simp only [validate_quality, hq]

theorem quality_over_range_mem_iff {cfg q : JObj}
    (hq : JObj.getPy cfg "quality" = JValue.obj q) :
    ("quality.canonical_token_confidence_threshold: must be <= 1"
        ∈ (validate_quality cfg).1 ↔
      "quality.canonical_token_confidence_threshold: must be <= 1"
        ∈ (quality_threshold_findings q).1) := by
  simp only [validate_quality, hq, List.mem_append]
  constructor
  · rintro (((h | h) | h) | h)
    · rcases mem_expect_number h with h1 | h1 | ⟨ms, ⟨m, hm⟩, h1⟩
      · exact absurd h1 (by decide)
      · exact absurd h1 (by decide)
      · obtain ⟨rfl, rfl⟩ := Prod.mk.inj (Option.some.inj hm)
        exact absurd h1 (by decide)
    · exact h
    · exact absurd (mem_ite_singleton h) (by decide)
    · obtain ⟨k, hk, hcase⟩ := mem_flatten_expect_bool h
      fin_cases hk <;> rcases hcase with h1 | h1 <;> exact absurd h1 (by decide)
  · intro h
    exact Or.inl (Or.inl (Or.inr h))

theorem thr_findings_gt {q : JObj} {v : JValue}
    (hv : JObj.getPy q "canonical_token_confidence_threshold" = v)
    (hn : v.isNum = true) (h : v.numVal > 1) :
    quality_threshold_findings q =
      (["quality.canonical_token_confidence_threshold: must be <= 1"], []) := by
  simp [quality_threshold_findings, hv, hn, h]

theorem thr_findings_low {q : JObj} {v : JValue}
    (hv : JObj.getPy q "canonical_token_confidence_threshold" = v)
    (hn : v.isNum = true) (h1 : ¬ v.numVal > 1) (h2 : v.numVal < mkRat 7 10) :
    quality_threshold_findings q =
      ([], ["quality.canonical_token_confidence_threshold: below recommended default 0.70"]) := by
  simp [quality_threshold_findings, hv, hn, h1, h2]

theorem thr_findings_mid {q : JObj} {v : JValue}
    (hv : JObj.getPy q "canonical_token_confidence_threshold" = v)
    (hn : v.isNum = true) (h1 : ¬ v.numVal > 1) (h2 : ¬ v.numVal < mkRat 7 10) :
    quality_threshold_findings q = ([], []) := by
  simp [quality_threshold_findings, hv, hn, h1, h2]

/-- Claim C3: for a numeric threshold, a value above 1 yields the
over-range error and no under-recommendation warning; a value below 0.7
(but at most 1) yields the warning and no over-range error; a value in
[0.7, 1] yields neither; and no value ever triggers both findings in one
run. -/
theorem quality_threshold_range_checks (cfg q : JObj) (v : JValue)
    (hq : JObj.getPy cfg "quality" = JValue.obj q)
    (hv : JObj.getPy q "canonical_token_confidence_threshold" = v)
    (hn : v.isNum = true) :
    (v.numVal > 1 →
      "quality.canonical_token_confidence_threshold: must be <= 1"
        ∈ (validate_quality cfg).1 ∧
      "quality.canonical_token_confidence_threshold: below recommended default 0.70"
        ∉ (validate_quality cfg).2) ∧
    (v.numVal < mkRat 7 10 → v.numVal ≤ 1 →
      "quality.canonical_token_confidence_threshold: below recommended default 0.70"
        ∈ (validate_quality cfg).2 ∧
      "quality.canonical_token_confidence_threshold: must be <= 1"
        ∉ (validate_quality cfg).1) ∧
    (mkRat 7 10 ≤ v.numVal → v.numVal ≤ 1 →
      "quality.canonical_token_confidence_threshold: must be <= 1"
        ∉ (validate_quality cfg).1 ∧
      "quality.canonical_token_confidence_threshold: below recommended default 0.70"
        ∉ (validate_quality cfg).2) ∧
    ¬("quality.canonical_token_confidence_threshold: must be <= 1"
        ∈ (validate_quality cfg).1 ∧
      "quality.canonical_token_confidence_threshold: below recommended default 0.70"
        ∈ (validate_quality cfg).2) := by
  have hw := quality_warns_eq hq
  have hE := quality_over_range_mem_iff hq
  refine ⟨?_, ?_, ?_, ?_⟩
  · intro h
    refine ⟨hE.mpr (by rw [thr_findings_gt hv hn h]; simp), ?_⟩
    rw [hw, thr_findings_gt hv hn h]
    simp
  · intro h2 hle
    have h1 : ¬ v.numVal > 1 := not_lt.mpr hle
    refine ⟨by rw [hw, thr_findings_low hv hn h1 h2]; simp, ?_⟩
    intro hmem
    have := hE.mp hmem
    rw [thr_findings_low hv hn h1 h2] at this
    simp at this
  · intro hge hle
    have h1 : ¬ v.numVal > 1 := not_lt.mpr hle
    have h2 : ¬ v.numVal < mkRat 7 10 := not_lt.mpr hge
    constructor
    · intro hmem
      have := hE.mp hmem
      rw [thr_findings_mid hv hn h1 h2] at this
      simp at this
    · rw [hw, thr_findings_mid hv hn h1 h2]
      simp
  · rintro ⟨hEmem, hWmem⟩
    by_cases hgt : v.numVal > 1
    · rw [hw, thr_findings_gt hv hn hgt] at hWmem
      simp at hWmem
    · by_cases hlt : v.numVal < mkRat 7 10
      · have := hE.mp hEmem
        rw [thr_findings_low hv hn hgt hlt] at this
        simp at this
      · have := hE.mp hEmem
        rw [thr_findings_mid hv hn hgt hlt] at this
        simp at this

/-- Witness for C3 at thresholds 1.2, 0.5 and 0.8. -/
theorem quality_threshold_range_checks_witness :
    ("quality.canonical_token_confidence_threshold: must be <= 1"
        ∈ (validate_quality [("quality", JValue.obj quality_thr_high)]).1 ∧
      "quality.canonical_token_confidence_threshold: below recommended default 0.70"
        ∉ (validate_quality [("quality", JValue.obj quality_thr_high)]).2) ∧
    ("quality.canonical_token_confidence_threshold: below recommended default 0.70"
        ∈ (validate_quality [("quality", JValue.obj quality_thr_low)]).2 ∧
      "quality.canonical_token_confidence_threshold: must be <= 1"
        ∉ (validate_quality [("quality", JValue.obj quality_thr_low)]).1) ∧
    ("quality.canonical_token_confidence_threshold: must be <= 1"
        ∉ (validate_quality [("quality", JValue.obj quality_thr_ok)]).1 ∧
      "quality.canonical_token_confidence_threshold: below recommended default 0.70"
        ∉ (validate_quality [("quality", JValue.obj quality_thr_ok)]).2) ∧
    ¬("quality.canonical_token_confidence_threshold: must be <= 1"
        ∈ (validate_quality [("quality", JValue.obj quality_thr_ok)]).1 ∧
      "quality.canonical_token_confidence_threshold: below recommended default 0.70"
        ∈ (validate_quality [("quality", JValue.obj quality_thr_ok)]).2) :=
  ⟨(quality_threshold_range_checks [("quality", JValue.obj quality_thr_high)]
      quality_thr_high (JValue.float (mkRat 12 10)) rfl rfl rfl).1 (by decide),
   (quality_threshold_range_checks [("quality", JValue.obj quality_thr_low)]
      quality_thr_low (JValue.float (mkRat 1 2)) rfl rfl rfl).2.1 (by decide) (by decide),
   (quality_threshold_range_checks [("quality", JValue.obj quality_thr_ok)]
      quality_thr_ok (JValue.float (mkRat 8 10)) rfl rfl rfl).2.2.1 (by decide) (by decide),
   (quality_threshold_range_checks [("quality", JValue.obj quality_thr_ok)]
      quality_thr_ok (JValue.float (mkRat 8 10)) rfl rfl rfl).2.2.2⟩

theorem mem_scope_custom_errs {s : JObj} {x : String}
    (h : x ∈ (scope_custom_urls_findings s).1) :
    x = "scope.custom_urls: required non-empty list when crawl_mode=custom_urls" ∨
    x = "scope.custom_urls: all entries must be http(s) URLs" := by
  unfold scope_custom_urls_findings at h
  repeat' split at h
  all_goals simp_all

theorem mem_scope_sitemap_errs {s : JObj} {x : String}
    (h : x ∈ (scope_sitemap_findings s).1) :
    x = "scope.sitemap_url: required http(s) URL when crawl_mode=sitemap" := by
  unfold scope_sitemap_findings at h
  repeat' split at h
  all_goals simp_all

theorem mem_scope_exclude_errs {s : JObj} {x : String}
    (h : x ∈ (scope_exclude_paths_findings s).1) :
    x = "scope.exclude_paths: must be a list of strings" := by
  unfold scope_exclude_paths_findings at h
  repeat' split at h
  all_goals simp_all

theorem scope_custom_errs_nil {s : JObj}
    (hc : jEqStr (JObj.getPy s "crawl_mode") "custom_urls" = false) :
    (scope_custom_urls_findings s).1 = [] := by
  unfold scope_custom_urls_findings
  rw [hc]
  simp only [Bool.false_eq_true, if_false]
  split <;> rfl

theorem scope_sitemap_errs_nil {s : JObj}
    (hc : jEqStr (JObj.getPy s "crawl_mode") "sitemap" = false) :
    (scope_sitemap_findings s).1 = [] := by
  unfold scope_sitemap_findings
  rw [hc]
  simp only [Bool.false_eq_true, if_false]
  split <;> rfl

theorem mem_validate_scope_errs {cfg s : JObj} {x : String}
    (hs : JObj.getPy cfg "scope" = JValue.obj s)
    (hx : x ∈ (validate_scope cfg).1) :
    x ∈ (scope_custom_urls_findings s).1 ∨ x ∈ (scope_sitemap_findings s).1 ∨
      x ∈ scope_other_error_msgs := by
  simp only [validate_scope, hs, List.mem_append] at hx
  rcases hx with ((((((((h | h) | h) | h) | h) | h) | h) | h) | h) | h
  · exact Or.inr (Or.inr (by rw [mem_ite_singleton h]; decide))
  · rcases mem_expect_number h with h1 | h1 | ⟨ms, ⟨m, hm⟩, h1⟩
    · exact Or.inr (Or.inr (by rw [h1]; decide))
    · exact Or.inr (Or.inr (by rw [h1]; decide))
    · obtain ⟨rfl, rfl⟩ := Prod.mk.inj (Option.some.inj hm)
      exact Or.inr (Or.inr (by rw [h1]; decide))
  · rcases mem_expect_number h with h1 | h1 | ⟨ms, ⟨m, hm⟩, h1⟩
    · exact Or.inr (Or.inr (by rw [h1]; decide))
    · exact Or.inr (Or.inr (by rw [h1]; decide))
    · obtain ⟨rfl, rfl⟩ := Prod.mk.inj (Option.some.inj hm)
      exact Or.inr (Or.inr (by rw [h1]; decide))
  · rcases mem_expect_bool h with h1 | h1 <;>
      exact Or.inr (Or.inr (by rw [h1]; decide))
  · rcases mem_expect_bool h with h1 | h1 <;>
      exact Or.inr (Or.inr (by rw [h1]; decide))
  · rcases mem_expect_number h with h1 | h1 | ⟨ms, ⟨m, hm⟩, h1⟩
    · exact Or.inr (Or.inr (by rw [h1]; decide))
    · exact Or.inr (Or.inr (by rw [h1]; decide))
    · obtain ⟨rfl, rfl⟩ := Prod.mk.inj (Option.some.inj hm)
      exact Or.inr (Or.inr (by rw [h1]; decide))
  · rcases mem_expect_number h with h1 | h1 | ⟨ms, ⟨m, hm⟩, h1⟩
    · exact Or.inr (Or.inr (by rw [h1]; decide))
    · exact Or.inr (Or.inr (by rw [h1]; decide))
    · obtain ⟨rfl, rfl⟩ := Prod.mk.inj (Option.some.inj hm)
      exact Or.inr (Or.inr (by rw [h1]; decide))
  · exact Or.inr (Or.inr (by rw [mem_scope_exclude_errs h]; decide))
  · exact Or.inl h
  · exact Or.inr (Or.inl h)

theorem scope_errs_lift {cfg s : JObj} {x : String}
    (hs : JObj.getPy cfg "scope" = JValue.obj s)
    (h : x ∈ (scope_custom_urls_findings s).1 ∨ x ∈ (scope_sitemap_findings s).1) :
    x ∈ (validate_scope cfg).1 := by
  simp only [validate_scope, hs, List.mem_append]
  rcases h with h | h
  · exact Or.inl (Or.inr h)
  · exact Or.inr h

theorem scope_warns_lift {cfg s : JObj} {x : String}
    (hs : JObj.getPy cfg "scope" = JValue.obj s)
    (h : x ∈ (scope_custom_urls_findings s).2 ∨ x ∈ (scope_sitemap_findings s).2) :
    x ∈ (validate_scope cfg).2 := by
  simp only [validate_scope, hs, List.mem_append]
  rcases h with h | h
  · exact Or.inl (Or.inr h)
  · exact Or.inr h

/-- Claim C4: when `crawl_mode == custom_urls`, an absent, non-list or
empty `scope.custom_urls` yields the required-non-empty-list error and a
non-empty list with a failing entry yields the all-entries error; when
`crawl_mode != custom_urls` but `custom_urls` is present and truthy,
exactly the ignored warning (and no custom_urls error) is emitted; and the
analogous rules hold for `crawl_mode == sitemap` and `scope.sitemap_url`. -/
theorem scope_conditional_rules (cfg s : JObj)
    (hs : JObj.getPy cfg "scope" = JValue.obj s) :
    (jEqStr (JObj.getPy s "crawl_mode") "custom_urls" = true →
      ((JObj.getPy s "custom_urls").isList = false →
        "scope.custom_urls: required non-empty list when crawl_mode=custom_urls"
          ∈ (validate_scope cfg).1) ∧
      (JObj.getPy s "custom_urls" = JValue.arr [] →
        "scope.custom_urls: required non-empty list when crawl_mode=custom_urls"
          ∈ (validate_scope cfg).1) ∧
      (∀ us : List JValue, JObj.getPy s "custom_urls" = JValue.arr us →
        us ≠ [] → us.all is_http_url = false →
        "scope.custom_urls: all entries must be http(s) URLs"
          ∈ (validate_scope cfg).1)) ∧
    (jEqStr (JObj.getPy s "crawl_mode") "custom_urls" = false →
      JObj.hasKey s "custom_urls" = true →
      (JObj.getPy s "custom_urls").truthy = true →
      "scope.custom_urls: ignored unless crawl_mode=custom_urls"
        ∈ (validate_scope cfg).2 ∧
      "scope.custom_urls: required non-empty list when crawl_mode=custom_urls"
        ∉ (validate_scope cfg).1 ∧
      "scope.custom_urls: all entries must be http(s) URLs"
        ∉ (validate_scope cfg).1) ∧
    (jEqStr (JObj.getPy s "crawl_mode") "sitemap" = true →
      is_http_url (JObj.getPy s "sitemap_url") = false →
      "scope.sitemap_url: required http(s) URL when crawl_mode=sitemap"
        ∈ (validate_scope cfg).1) ∧
    (jEqStr (JObj.getPy s "crawl_mode") "sitemap" = false →
      JObj.hasKey s "sitemap_url" = true →
      (JObj.getPy s "sitemap_url").truthy = true →
      "scope.sitemap_url: ignored unless crawl_mode=sitemap"
        ∈ (validate_scope cfg).2 ∧
      "scope.sitemap_url: required http(s) URL when crawl_mode=sitemap"
        ∉ (validate_scope cfg).1) := by
  refine ⟨?_, ?_, ?_, ?_⟩
  · intro hc
    refine ⟨?_, ?_, ?_⟩
    · intro hl
      refine scope_errs_lift hs (Or.inl ?_)
      cases hv : JObj.getPy s "custom_urls" <;>
        simp_all [scope_custom_urls_findings, JValue.isList]
    · intro hv
      refine scope_errs_lift hs (Or.inl ?_)
      simp [scope_custom_urls_findings, hc, hv]
    · intro us hv hne hall
      refine scope_errs_lift hs (Or.inl ?_)
      have hie : us.isEmpty = false := by
        cases us with
        | nil => exact absurd rfl hne
        | cons a t => rfl
      simp [scope_custom_urls_findings, hc, hv, hie, hall]
  · intro hc hk ht
    refine ⟨?_, ?_, ?_⟩
    · refine scope_warns_lift hs (Or.inl ?_)
      simp [scope_custom_urls_findings, hc, hk, ht]
    · intro hmem
      rcases mem_validate_scope_errs hs hmem with h | h | h
      · rw [scope_custom_errs_nil hc] at h; simp at h
      · exact absurd (mem_scope_sitemap_errs h) (by decide)
      · exact absurd h (by decide)
    · intro hmem
      rcases mem_validate_scope_errs hs hmem with h | h | h
      · rw [scope_custom_errs_nil hc] at h; simp at h
      · exact absurd (mem_scope_sitemap_errs h) (by decide)
      · exact absurd h (by decide)
  · intro hc hurl
    refine scope_errs_lift hs (Or.inr ?_)
    simp [scope_sitemap_findings, hc, hurl]
  · intro hc hk ht
    refine ⟨?_, ?_⟩
    · refine scope_warns_lift hs (Or.inr ?_)
      simp [scope_sitemap_findings, hc, hk, ht]
    · intro hmem
      rcases mem_validate_scope_errs hs hmem with h | h | h
      · exact absurd (mem_scope_custom_errs h) (by decide)
      · rw [scope_sitemap_errs_nil hc] at h; simp at h
      · exact absurd h (by decide)

/-- Witness for C4 on five concrete scope sections: missing, empty and
non-URL custom_urls lists, a stray custom_urls, a bad sitemap_url and a
stray sitemap_url. -/
theorem scope_conditional_rules_witness :
    "scope.custom_urls: required non-empty list when crawl_mode=custom_urls"
      ∈ (validate_scope [("scope", JValue.obj scope_custom_missing)]).1 ∧
    "scope.custom_urls: required non-empty list when crawl_mode=custom_urls"
      ∈ (validate_scope [("scope", JValue.obj scope_custom_empty)]).1 ∧
    "scope.custom_urls: all entries must be http(s) URLs"
      ∈ (validate_scope [("scope", JValue.obj scope_custom_bad_url)]).1 ∧
    ("scope.custom_urls: ignored unless crawl_mode=custom_urls"
      ∈ (validate_scope [("scope", JValue.obj scope_stray_custom)]).2 ∧
     "scope.custom_urls: required non-empty list when crawl_mode=custom_urls"
      ∉ (validate_scope [("scope", JValue.obj scope_stray_custom)]).1 ∧
     "scope.custom_urls: all entries must be http(s) URLs"
      ∉ (validate_scope [("scope", JValue.obj scope_stray_custom)]).1) ∧
    "scope.sitemap_url: required http(s) URL when crawl_mode=sitemap"
      ∈ (validate_scope [("scope", JValue.obj scope_bad_sitemap)]).1 ∧
    ("scope.sitemap_url: ignored unless crawl_mode=sitemap"
      ∈ (validate_scope [("scope", JValue.obj scope_stray_sitemap)]).2 ∧
     "scope.sitemap_url: required http(s) URL when crawl_mode=sitemap"
      ∉ (validate_scope [("scope", JValue.obj scope_stray_sitemap)]).1) :=
  ⟨((scope_conditional_rules [("scope", JValue.obj scope_custom_missing)]
      scope_custom_missing rfl).1 rfl).1 rfl,
   ((scope_conditional_rules [("scope", JValue.obj scope_custom_empty)]
      scope_custom_empty rfl).1 rfl).2.1 rfl,
   ((scope_conditional_rules [("scope", JValue.obj scope_custom_bad_url)]
      scope_custom_bad_url rfl).1 rfl).2.2 [JValue.str "ftp://a"] rfl
      (by simp) rfl,
   (scope_conditional_rules [("scope", JValue.obj scope_stray_custom)]
      scope_stray_custom rfl).2.1 rfl rfl rfl,
   (scope_conditional_rules [("scope", JValue.obj scope_bad_sitemap)]
      scope_bad_sitemap rfl).2.2.1 rfl rfl,
   (scope_conditional_rules [("scope", JValue.obj scope_stray_sitemap)]
      scope_stray_sitemap rfl).2.2.2 rfl rfl rfl⟩

theorem missing_required_congr {fs1 fs2 : FileSystem} {root : String}
    (h : ∀ p, fs1.pathExists p = fs2.pathExists p) :
    missing_required_errors fs1 root = missing_required_errors fs2 root := by
  simp only [missing_required_errors, h]

theorem validate_output_package_of_missing {fs : FileSystem} {root : String}
    (h : missing_required_errors fs root ≠ []) :
    validate_output_package fs root =
      { exitCode := 1, errors := missing_required_errors fs root, warnings := [],
        summary := "Validation failed (" ++
          toString (missing_required_errors fs root).length ++
          " missing required files)" } := by
  unfold validate_output_package
  have h1 : (missing_required_errors fs root).isEmpty = false := by
    cases hm : missing_required_errors fs root with
    | nil => exact absurd hm h
    | cons a t => rfl
  simp [h1]

theorem validate_output_package_content_fail {fs : FileSystem} {root : String}
    (h0 : missing_required_errors fs root = [])
    (h1 : (content_findings fs root).1 ≠ []) :
    validate_output_package fs root =
      { exitCode := 1, errors := (content_findings fs root).1,
        warnings := (content_findings fs root).2,
        summary := "Validation failed (" ++
          toString (content_findings fs root).1.length ++ " error(s), " ++
          toString (content_findings fs root).2.length ++ " warning(s))" } := by
  unfold validate_output_package
  have he : (missing_required_errors fs root).isEmpty = true := by rw [h0]; rfl
  have hc : (content_findings fs root).1.isEmpty = false := by
    cases hm : (content_findings fs root).1 with
    | nil => exact absurd hm h1
    | cons a t => rfl
  simp [he, hc]

theorem validate_output_package_pass {fs : FileSystem} {root : String}
    (h0 : missing_required_errors fs root = [])
    (h1 : (content_findings fs root).1 = []) :
    validate_output_package fs root =
      { exitCode := 0, errors := [], warnings := (content_findings fs root).2,
        summary := "Validation passed with " ++
          toString (content_findings fs root).2.length ++ " warning(s)" } := by
  unfold validate_output_package
  have he : (missing_required_errors fs root).isEmpty = true := by rw [h0]; rfl
  have hc : (content_findings fs root).1.isEmpty = true := by rw [h1]; rfl
  simp [he, hc]

/-- Claim C8: the output-package checker reports missing required files as
blocking errors and exits 1 before any content inspection (its result then
depends only on the path-existence oracle), its exit code is 1 iff some
required path is missing or some checked JSON fails to parse or fails its
shape check (the content-inspection error list is non-empty), and
otherwise it exits 0 reporting the warning count. -/
theorem output_package_gate :
    (∀ (fs : FileSystem) (root : String),
      ((validate_output_package fs root).exitCode = 1 ↔
        (missing_required_errors fs root ≠ [] ∨ (content_findings fs root).1 ≠ []))) ∧
    (∀ (fs1 fs2 : FileSystem) (root : String),
      (∀ p, fs1.pathExists p = fs2.pathExists p) →
      missing_required_errors fs1 root ≠ [] →
      validate_output_package fs1 root = validate_output_package fs2 root ∧
      (validate_output_package fs1 root).exitCode = 1 ∧
      (validate_output_package fs1 root).errors = missing_required_errors fs1 root) ∧
    (∀ (fs : FileSystem) (root : String),
      (validate_output_package fs root).exitCode ≠ 1 →
      (validate_output_package fs root).exitCode = 0 ∧
      (validate_output_package fs root).summary =
        "Validation passed with " ++
          toString (validate_output_package fs root).warnings.length ++
          " warning(s)") := by
  refine ⟨?_, ?_, ?_⟩
  · intro fs root
    by_cases hm : missing_required_errors fs root = []
    · by_cases hc : (content_findings fs root).1 = []
      · rw [validate_output_package_pass hm hc]
        simp [hm, hc]
      · rw [validate_output_package_content_fail hm hc]
        simp [hc]
    · rw [validate_output_package_of_missing hm]
      simp [hm]
  · intro fs1 fs2 root hpe hm
    have h12 := @missing_required_congr fs1 fs2 root hpe
    have hm2 : missing_required_errors fs2 root ≠ [] := by rw [← h12]; exact hm
    refine ⟨?_, ?_, ?_⟩
    · rw [validate_output_package_of_missing hm,
         validate_output_package_of_missing hm2, h12]
    · rw [validate_output_package_of_missing hm]
    · rw [validate_output_package_of_missing hm]
  · intro fs root hne
    by_cases hm : missing_required_errors fs root = []
    · by_cases hc : (content_findings fs root).1 = []
      · rw [validate_output_package_pass hm hc]
        exact ⟨rfl, rfl⟩
      · exact absurd (by rw [validate_output_package_content_fail hm hc]) hne
    · exact absurd (by rw [validate_output_package_of_missing hm]) hne

/-- Witness for C8: an all-missing output directory under two filesystems
that agree on existence but differ in content, and a complete passing
directory. -/
theorem output_package_gate_witness :
    ((validate_output_package fs_all_missing_a "design-system-output").exitCode = 1 ↔
      (missing_required_errors fs_all_missing_a "design-system-output" ≠ [] ∨
        (content_findings fs_all_missing_a "design-system-output").1 ≠ [])) ∧
    (validate_output_package fs_all_missing_a "design-system-output" =
      validate_output_package fs_all_missing_b "design-system-output" ∧
     (validate_output_package fs_all_missing_a "design-system-output").exitCode = 1 ∧
     (validate_output_package fs_all_missing_a "design-system-output").errors =
       missing_required_errors fs_all_missing_a "design-system-output") ∧
    ((validate_output_package fs_ok "out").exitCode = 0 ∧
     (validate_output_package fs_ok "out").summary =
       "Validation passed with " ++
         toString (validate_output_package fs_ok "out").warnings.length ++
         " warning(s)") :=
  ⟨output_package_gate.1 fs_all_missing_a "design-system-output",
   output_package_gate.2.1 fs_all_missing_a fs_all_missing_b "design-system-output"
     (fun p => rfl) (by decide),
   output_package_gate.2.2 fs_ok "out" (by decide)⟩
